import Mathlib

/-!
Verification of the SnapClaw streak engine and expiration sweeper.

The definitions below are a shallow embedding of `backend/routers/snaps.py`
(`_update_streak` and the snap-posting endpoints) and `backend/cleanup.py`
(`run_cleanup`, `_purge_storage_files`).

Modelling conventions:
* Timestamps are integers counting seconds.  The Python code compares
  `datetime` values (or their ISO strings, which for UTC ISO timestamps
  agree with chronological order); only the order and differences of
  timestamps are used.
* `hours_since` in the code is `(now - last).total_seconds() / 3600`; it is
  embedded as exact rational division.
* Bot identifiers are UUID strings in the code, ordered lexicographically
  by `sorted([bot_a, bot_b])`.  Only their equality and total order are
  used, so they are embedded as naturals with their numeric order.
* Database rows carry a numeric `id` generated by the database; inserts are
  modelled with an explicitly supplied fresh id.
-/

namespace SnapClaw

/-- A bot identifier (a UUID string in the code; only its equality and
total order are used). -/
abbrev BotId := Nat

/-- A row of the `streaks` table.  `bot_a_id ≤ bot_b_id` is the canonical
(sorted) pair maintained by `_update_streak`; `at_risk` has database
default `false` (the insert in `_update_streak` does not set it). -/
structure Streak where
  id : Nat
  bot_a_id : BotId
  bot_b_id : BotId
  count : Nat
  last_snap_at : ℤ
  bot_a_sent : Bool
  bot_b_sent : Bool
  at_risk : Bool
deriving DecidableEq, Repr

/-- The canonical ordering `a, b = sorted([bot_a, bot_b])` from `_update_streak`. -/
def sortedPair (x y : BotId) : BotId × BotId :=
  if x ≤ y then (x, y) else (y, x)

/-- The elapsed time `hours_since = (now - last).total_seconds() / 3600` from
`_update_streak`. -/
def hoursSince (last now : ℤ) : ℚ :=
  ((now - last : ℤ) : ℚ) / 3600

/-- The row inserted by `_update_streak` when no record exists for the
canonical pair: `count=1`, `last_snap_at=now`, `bot_a_sent=(bot_a == a)`,
`bot_b_sent=(bot_a == b)`; `at_risk` takes its database default `false`. -/
def insertStreak (newId : Nat) (bot_a bot_b : BotId) (now : ℤ) : Streak :=
  let a := (sortedPair bot_a bot_b).1
  let b := (sortedPair bot_a bot_b).2
  { id := newId
    bot_a_id := a
    bot_b_id := b
    count := 1
    last_snap_at := now
    bot_a_sent := decide (bot_a = a)
    bot_b_sent := decide (bot_a = b)
    at_risk := false }

/-- The update issued by `_update_streak` on an existing record: the
`updates` dict is computed from the row `s` that was read, and then applied
to a row `r` (the row matched by `.eq("id", streak["id"])`). -/
def applyStreakSend (bot_a bot_b : BotId) (now : ℤ) (s r : Streak) : Streak :=
  let a := (sortedPair bot_a bot_b).1
  let b := (sortedPair bot_a bot_b).2
  if hoursSince s.last_snap_at now > 48 then
    -- "Streak broken — reset"
    { r with count := 1, last_snap_at := now,
             bot_a_sent := decide (bot_a = a), bot_b_sent := decide (bot_a = b),
             at_risk := false }
  else
    let base := { r with last_snap_at := now, at_risk := false }
    let flagged :=
      if bot_a = a then { base with bot_a_sent := true }
      else { base with bot_b_sent := true }
    -- "If both sides have sent, advance streak"
    let both_sent := (decide (bot_a = a) && s.bot_b_sent) ||
                     (decide (bot_a = b) && s.bot_a_sent)
    if both_sent then
      { flagged with count := s.count + 1, bot_a_sent := false, bot_b_sent := false }
    else
      flagged

/-- The effect of `_update_streak` on an existing record, the
read-modify-write of one row. -/
def updateStreakExisting (bot_a bot_b : BotId) (now : ℤ) (s : Streak) : Streak :=
  applyStreakSend bot_a bot_b now s s

/-- The sent-flag of bot `x` on record `s` (flags are keyed by the canonical
pair, so `x`'s flag is `bot_a_sent` exactly when `x` is the low id). -/
def sentFlag (s : Streak) (x : BotId) : Bool :=
  if x = s.bot_a_id then s.bot_a_sent else s.bot_b_sent

/-- The sent-flag of the party opposite `x` on record `s`. -/
def otherFlag (s : Streak) (x : BotId) : Bool :=
  if x = s.bot_a_id then s.bot_b_sent else s.bot_a_sent

/-! ### The streaks table -/

/-- The lookup in `_update_streak`:
`select("*").eq("bot_a_id", a).eq("bot_b_id", b)` on the sorted pair. -/
def findStreak (tbl : List Streak) (bot_a bot_b : BotId) : Option Streak :=
  let a := (sortedPair bot_a bot_b).1
  let b := (sortedPair bot_a bot_b).2
  tbl.find? (fun s => decide (s.bot_a_id = a) && decide (s.bot_b_id = b))

/-- A fresh row id for an insert (row ids are generated by the database;
modelled as one more than the largest id in the table). -/
def freshId (tbl : List Streak) : Nat :=
  (tbl.map Streak.id).foldr max 0 + 1

/-- The whole of `_update_streak(db, bot_a, bot_b)` as a transformation of the
`streaks` table: look the canonical pair up, insert a fresh row when absent,
otherwise apply the computed update dict to the row matched by
`.eq("id", streak["id"])`. -/
def recordDirectSnap (tbl : List Streak) (bot_a bot_b : BotId) (now : ℤ) :
    List Streak :=
  match findStreak tbl bot_a bot_b with
  | none => tbl ++ [insertStreak (freshId tbl) bot_a bot_b now]
  | some s => tbl.map (fun r => if r.id = s.id then applyStreakSend bot_a bot_b now s r else r)

/-- The canonical key of a streak row. -/
def streakKey (s : Streak) : BotId × BotId :=
  (s.bot_a_id, s.bot_b_id)

/-- The rows of the table whose canonical key is the sorted pair of `x, y`. -/
def pairRecords (tbl : List Streak) (x y : BotId) : List Streak :=
  tbl.filter (fun s => decide (streakKey s = sortedPair x y))

/-- Well-formedness of the `streaks` table: row ids are distinct (database
primary key), canonical keys are distinct (at most one row per pair), and
every stored key is sorted low-to-high. -/
def StreakTableInv (tbl : List Streak) : Prop :=
  (tbl.map Streak.id).Nodup ∧ (tbl.map streakKey).Nodup ∧
    ∀ s ∈ tbl, s.bot_a_id ≤ s.bot_b_id

/-- A sequence of direct snaps: each element is (sender, recipient, time). -/
def snapSeq (tbl : List Streak) (ops : List (BotId × BotId × ℤ)) : List Streak :=
  ops.foldl (fun acc op => recordDirectSnap acc op.1 op.2.1 op.2.2) tbl

/-! ### The expiration sweeper (`backend/cleanup.py`) -/

/-- A row of the `snaps` table, restricted to the fields `run_cleanup`
reads (`id, image_url, expires_at`).  The marker-substring extraction of
`_purge_storage_files` is modelled by storing the extracted storage path
directly: `some path` when `image_url` contains the public-bucket marker,
`none` for an externally hosted URL. -/
structure SnapRow where
  id : Nat
  storage_path : Option Nat
  expires_at : ℤ
deriving DecidableEq, Repr

/-- A row of the `stories` table (only `expires_at` matters to the sweep). -/
structure StoryRow where
  id : Nat
  expires_at : ℤ
deriving DecidableEq, Repr

/-- A row of the `messages` table (only `expires_at` matters to the sweep). -/
structure MessageRow where
  id : Nat
  expires_at : ℤ
deriving DecidableEq, Repr

/-- The database state touched by `run_cleanup`. -/
structure CleanState where
  snaps : List SnapRow
  stories : List StoryRow
  messages : List MessageRow
  streaks : List Streak
deriving DecidableEq, Repr

/-- The `stats` dict returned by `run_cleanup` (absent keys read as 0). -/
structure CleanupStats where
  storage_files_deleted : Nat
  snaps_deleted : Nat
  stories_deleted : Nat
  messages_deleted : Nat
  streaks_reset : Nat
deriving DecidableEq, Repr

/-- The purge helper `_purge_storage_files`: keep the URLs that contain the
bucket marker,
return how many storage objects were removed (0 when the batch remove
raises, which the function catches itself). -/
def purgeStorageFiles (removeFails : Bool) (urls : List (Option Nat)) : Nat :=
  let paths := urls.filterMap id
  if paths.length = 0 then 0
  else if removeFails then 0  -- `except`: log a warning and return 0
  else paths.length

/-- The at-risk bulk update of `run_cleanup`:
`update({"at_risk": True}).lt("last_snap_at", now - 20h).eq("at_risk", False)`
as its effect on one row. -/
def markRow (now : ℤ) (s : Streak) : Streak :=
  if s.last_snap_at < now - 20 * 3600 ∧ s.at_risk = false then
    { s with at_risk := true }
  else s

/-- The per-row reset issued for each member of the broken selection
(`lt("last_snap_at", now - 48h)`):
`count=1, bot_a_sent=False, bot_b_sent=False, at_risk=False`
(note: `last_snap_at` is not updated). -/
def resetRow (now : ℤ) (s : Streak) : Streak :=
  if s.last_snap_at < now - 48 * 3600 then
    { s with count := 1, bot_a_sent := false, bot_b_sent := false, at_risk := false }
  else s

/-- The combined effect of one sweep run on one streak row: the at-risk
marking runs first, the reset loop second. -/
def sweepStreakRow (now : ℤ) (s : Streak) : Streak :=
  resetRow now (markRow now s)

/-- The sweep `run_cleanup(db)` in the fault-free case: sweep expired snaps (purging
their storage objects first), expired stories, expired messages, then mark
at-risk streaks and reset broken ones.  Deleting `.in_("id", snap_ids)` is
modelled by filtering out the expired rows (ids are unique). -/
def runCleanup (st : CleanState) (now : ℤ) : CleanState × CleanupStats :=
  let expired := st.snaps.filter (fun s => decide (s.expires_at < now))
  let storageDeleted := purgeStorageFiles false (expired.map SnapRow.storage_path)
  let snaps2 := st.snaps.filter (fun s => !decide (s.expires_at < now))
  let storiesDeleted := (st.stories.filter (fun r => decide (r.expires_at < now))).length
  let stories2 := st.stories.filter (fun r => !decide (r.expires_at < now))
  let messagesDeleted := (st.messages.filter (fun r => decide (r.expires_at < now))).length
  let messages2 := st.messages.filter (fun r => !decide (r.expires_at < now))
  let streaks1 := st.streaks.map (markRow now)
  let broken := streaks1.filter (fun s => decide (s.last_snap_at < now - 48 * 3600))
  let streaks2 := streaks1.map (resetRow now)
  (⟨snaps2, stories2, messages2, streaks2⟩,
   { storage_files_deleted := storageDeleted
     snaps_deleted := expired.length
     stories_deleted := storiesDeleted
     messages_deleted := messagesDeleted
     streaks_reset := broken.length })

/-! ### Fault behaviour of the sweeper

`run_cleanup` wraps only `_purge_storage_files` in a `try/except`; every
other database call can raise, and a raised exception propagates out of
`run_cleanup`, skipping all code after the failing call.  `SweepFault`
says which calls raise when they are executed. -/

structure SweepFault where
  /-- Whether `db.storage.from_(bucket).remove(paths)` raises (caught internally). -/
  storagePurge : Bool
  /-- Whether the snaps `delete().in_("id", snap_ids)` call raises. -/
  snapDelete : Bool
  /-- Whether the stories `delete().lt(...)` call raises. -/
  storyDelete : Bool
  /-- Whether the messages `delete().lt(...)` call raises. -/
  messageDelete : Bool
  /-- the at-risk bulk `update` raises. -/
  atRiskUpdate : Bool
  /-- ids of broken streaks whose individual reset `update` raises. -/
  resetFailIds : List Nat
deriving DecidableEq, Repr

/-- The fault with no failing call. -/
def noFault : SweepFault :=
  { storagePurge := false, snapDelete := false, storyDelete := false,
    messageDelete := false, atRiskUpdate := false, resetFailIds := [] }

/-- The `for streak in broken.data:` reset loop: each row is updated by id
in turn; if one update raises, the loop is abandoned and the exception
propagates (rows already updated stay updated). -/
def resetLoop (failIds : List Nat) (pending : List Nat) (tbl : List Streak) :
    List Streak × Bool :=
  match pending with
  | [] => (tbl, false)
  | i :: rest =>
    if i ∈ failIds then (tbl, true)
    else resetLoop failIds rest
      (tbl.map fun s =>
        if s.id = i then
          { s with count := 1, bot_a_sent := false, bot_b_sent := false, at_risk := false }
        else s)

/-- The sweep `run_cleanup(db)` with fault injection.  Returns the database state
when the function returns or the exception escapes, the `stats` collected
up to that point, and whether an exception escaped. -/
def runCleanupF (f : SweepFault) (st : CleanState) (now : ℤ) :
    CleanState × CleanupStats × Bool :=
  let expired := st.snaps.filter (fun s => decide (s.expires_at < now))
  -- storage purge only happens when there are expired snaps; its failure is
  -- caught inside `_purge_storage_files` and reported as 0 files deleted
  let storageDeleted := purgeStorageFiles f.storagePurge (expired.map SnapRow.storage_path)
  let stats0 : CleanupStats :=
    { storage_files_deleted := storageDeleted, snaps_deleted := 0,
      stories_deleted := 0, messages_deleted := 0, streaks_reset := 0 }
  if expired.length ≠ 0 ∧ f.snapDelete then (st, stats0, true)
  else
    let st1 := { st with snaps := st.snaps.filter (fun s => !decide (s.expires_at < now)) }
    let stats1 := { stats0 with snaps_deleted := expired.length }
    if f.storyDelete then (st1, stats1, true)
    else
      let storiesDeleted := (st1.stories.filter (fun r => decide (r.expires_at < now))).length
      let st2 := { st1 with stories := st1.stories.filter (fun r => !decide (r.expires_at < now)) }
      let stats2 := { stats1 with stories_deleted := storiesDeleted }
      if f.messageDelete then (st2, stats2, true)
      else
        let messagesDeleted := (st2.messages.filter (fun r => decide (r.expires_at < now))).length
        let st3 := { st2 with messages := st2.messages.filter (fun r => !decide (r.expires_at < now)) }
        let stats3 := { stats2 with messages_deleted := messagesDeleted }
        if f.atRiskUpdate then (st3, stats3, true)
        else
          let streaks1 := st3.streaks.map (markRow now)
          let broken := streaks1.filter (fun s => decide (s.last_snap_at < now - 48 * 3600))
          let res := resetLoop f.resetFailIds (broken.map Streak.id) streaks1
          ({ st3 with streaks := res.1 },
           { stats3 with streaks_reset := broken.length }, res.2)

/-! ### Snap creation TTL (`models/snap.py`, `routers/snaps.py`) -/

/-- The bound `Field(default=24, ge=1, le=168)` on
`PostSnapRequest.expires_in_hours`: pydantic rejects the request when the
supplied TTL is outside `[1, 168]`. -/
def expiresInHoursValid (hrs : ℤ) : Bool :=
  decide (1 ≤ hrs) && decide (hrs ≤ 168)

/-- The JSON endpoint `POST /snaps` (`post_snap`): the TTL is validated by
`PostSnapRequest`;
an accepted snap gets `expires_at = now + timedelta(hours=h)`, an invalid
TTL is rejected (`none`). -/
def postSnapExpiresAt (now : ℤ) (hrs : ℤ) : Option ℤ :=
  if expiresInHoursValid hrs then some (now + hrs * 3600) else none

/-- The multipart endpoint `POST /snaps/upload` (`post_snap_file`):
`expires_in_hours` is a plain
`Form(24)` integer with no bound, and the snap is always stored with
`expires_at = now + timedelta(hours=expires_in_hours)`. -/
def postSnapFileExpiresAt (now : ℤ) (hrs : ℤ) : ℤ :=
  now + hrs * 3600

/-! ### Basic lemmas -/

/-- The break test `hours_since > 48` in elapsed seconds. -/
lemma hoursSince_gt_iff (last now : ℤ) :
    48 < hoursSince last now ↔ 48 * 3600 < now - last := by
  unfold hoursSince
  rw [lt_div_iff₀ (by norm_num : (0 : ℚ) < 3600)]
  norm_cast

/-- The complement of the break test in elapsed seconds. -/
lemma hoursSince_le_iff (last now : ℤ) :
    hoursSince last now ≤ 48 ↔ now - last ≤ 48 * 3600 := by
  rw [← not_lt, hoursSince_gt_iff, not_lt]

/-! ### C1 — sends within 48 hours -/

/-- C1: on an existing record with at most 48 hours elapsed, a direct snap
sets `last_snap_at = now` and clears `at_risk`; it increments `count` by
exactly one and clears both sent flags precisely when the other party's
flag was already set, and a repeat send by the same party leaves the count
unchanged, the sender's flag true and the other flag false. -/
theorem streak_send_within_48h (sender recipient : BotId) (now : ℤ) (s : Streak)
    (hkey : sortedPair sender recipient = (s.bot_a_id, s.bot_b_id))
    (hne : sender ≠ recipient)
    (hel : now - s.last_snap_at ≤ 48 * 3600) :
    (updateStreakExisting sender recipient now s).last_snap_at = now ∧
    (updateStreakExisting sender recipient now s).at_risk = false ∧
    (((updateStreakExisting sender recipient now s).count = s.count + 1 ∧
      (updateStreakExisting sender recipient now s).bot_a_sent = false ∧
      (updateStreakExisting sender recipient now s).bot_b_sent = false) ↔
        otherFlag s sender = true) ∧
    (otherFlag s sender = false →
      (updateStreakExisting sender recipient now s).count = s.count ∧
      sentFlag (updateStreakExisting sender recipient now s) sender = true ∧
      otherFlag (updateStreakExisting sender recipient now s) sender = false) := by
  obtain ⟨sid, a, b, cnt, last, fa, fb, risk⟩ := s
  dsimp only at hel
  have hbreak : ¬ 48 < hoursSince last now := by
    rw [hoursSince_gt_iff]; omega
  unfold sortedPair at hkey
  rcases le_or_lt sender recipient with hle | hlt
  · rw [if_pos hle] at hkey
    simp only [Prod.mk.injEq] at hkey
    obtain ⟨ha, hb⟩ := hkey
    subst ha; subst hb
    cases fb <;>
      simp [updateStreakExisting, applyStreakSend, sortedPair, hle,
        otherFlag, sentFlag, hne, hbreak]
  · have hnle : ¬ sender ≤ recipient := not_le.mpr hlt
    rw [if_neg hnle] at hkey
    simp only [Prod.mk.injEq] at hkey
    obtain ⟨ha, hb⟩ := hkey
    subst ha; subst hb
    cases fa <;>
      simp [updateStreakExisting, applyStreakSend, sortedPair, hnle,
        otherFlag, sentFlag, hne, hbreak]

/-- Witness for C1 at a concrete mutual-advance input. -/
theorem streak_send_within_48h_witness :
    (sortedPair 1 2 = ((⟨5, 1, 2, 3, 0, false, true, false⟩ : Streak).bot_a_id,
        (⟨5, 1, 2, 3, 0, false, true, false⟩ : Streak).bot_b_id) ∧
      (1 : BotId) ≠ 2 ∧
      (3600 : ℤ) - (⟨5, 1, 2, 3, 0, false, true, false⟩ : Streak).last_snap_at ≤ 48 * 3600) ∧
    ((updateStreakExisting 1 2 3600 ⟨5, 1, 2, 3, 0, false, true, false⟩).last_snap_at = 3600 ∧
     (updateStreakExisting 1 2 3600 ⟨5, 1, 2, 3, 0, false, true, false⟩).at_risk = false ∧
     (((updateStreakExisting 1 2 3600 ⟨5, 1, 2, 3, 0, false, true, false⟩).count =
          (⟨5, 1, 2, 3, 0, false, true, false⟩ : Streak).count + 1 ∧
       (updateStreakExisting 1 2 3600 ⟨5, 1, 2, 3, 0, false, true, false⟩).bot_a_sent = false ∧
       (updateStreakExisting 1 2 3600 ⟨5, 1, 2, 3, 0, false, true, false⟩).bot_b_sent = false) ↔
         otherFlag ⟨5, 1, 2, 3, 0, false, true, false⟩ 1 = true) ∧
     (otherFlag ⟨5, 1, 2, 3, 0, false, true, false⟩ 1 = false →
       (updateStreakExisting 1 2 3600 ⟨5, 1, 2, 3, 0, false, true, false⟩).count =
         (⟨5, 1, 2, 3, 0, false, true, false⟩ : Streak).count ∧
       sentFlag (updateStreakExisting 1 2 3600 ⟨5, 1, 2, 3, 0, false, true, false⟩) 1 = true ∧
       otherFlag (updateStreakExisting 1 2 3600 ⟨5, 1, 2, 3, 0, false, true, false⟩) 1 = false)) :=
  ⟨⟨by decide, by decide, by decide⟩,
    streak_send_within_48h 1 2 3600 ⟨5, 1, 2, 3, 0, false, true, false⟩
      (by decide) (by decide) (by decide)⟩

/-! ### C3 — send after a gap of more than 48 hours -/

/-- C3: a direct snap arriving more than 48 hours after `last_snap_at`
resets the record regardless of the prior count: `count = 1`,
`last_snap_at = now`, the sender's flag true, the other flag false,
`at_risk = false`. -/
theorem streak_send_break (sender recipient : BotId) (now : ℤ) (s : Streak)
    (hkey : sortedPair sender recipient = (s.bot_a_id, s.bot_b_id))
    (hne : sender ≠ recipient)
    (hel : 48 * 3600 < now - s.last_snap_at) :
    (updateStreakExisting sender recipient now s).count = 1 ∧
    (updateStreakExisting sender recipient now s).last_snap_at = now ∧
    sentFlag (updateStreakExisting sender recipient now s) sender = true ∧
    otherFlag (updateStreakExisting sender recipient now s) sender = false ∧
    (updateStreakExisting sender recipient now s).at_risk = false := by
  obtain ⟨sid, a, b, cnt, last, fa, fb, risk⟩ := s
  dsimp only at hel
  have hbreak : 48 < hoursSince last now := by
    rw [hoursSince_gt_iff]; omega
  unfold sortedPair at hkey
  rcases le_or_lt sender recipient with hle | hlt
  · rw [if_pos hle] at hkey
    simp only [Prod.mk.injEq] at hkey
    obtain ⟨ha, hb⟩ := hkey
    subst ha; subst hb
    simp [updateStreakExisting, applyStreakSend, sortedPair, hle,
      otherFlag, sentFlag, hne, hbreak]
  · have hnle : ¬ sender ≤ recipient := not_le.mpr hlt
    rw [if_neg hnle] at hkey
    simp only [Prod.mk.injEq] at hkey
    obtain ⟨ha, hb⟩ := hkey
    subst ha; subst hb
    simp [updateStreakExisting, applyStreakSend, sortedPair, hnle,
      otherFlag, sentFlag, hne, hbreak]

/-- Witness for C3: a send 49 hours after the last snap, prior count 7. -/
theorem streak_send_break_witness :
    (sortedPair 2 1 = ((⟨5, 1, 2, 7, 0, true, true, true⟩ : Streak).bot_a_id,
        (⟨5, 1, 2, 7, 0, true, true, true⟩ : Streak).bot_b_id) ∧
      (2 : BotId) ≠ 1 ∧
      48 * 3600 < (176400 : ℤ) - (⟨5, 1, 2, 7, 0, true, true, true⟩ : Streak).last_snap_at) ∧
    ((updateStreakExisting 2 1 176400 ⟨5, 1, 2, 7, 0, true, true, true⟩).count = 1 ∧
     (updateStreakExisting 2 1 176400 ⟨5, 1, 2, 7, 0, true, true, true⟩).last_snap_at = 176400 ∧
     sentFlag (updateStreakExisting 2 1 176400 ⟨5, 1, 2, 7, 0, true, true, true⟩) 2 = true ∧
     otherFlag (updateStreakExisting 2 1 176400 ⟨5, 1, 2, 7, 0, true, true, true⟩) 2 = false ∧
     (updateStreakExisting 2 1 176400 ⟨5, 1, 2, 7, 0, true, true, true⟩).at_risk = false) :=
  ⟨⟨by decide, by decide, by decide⟩,
    streak_send_break 2 1 176400 ⟨5, 1, 2, 7, 0, true, true, true⟩
      (by decide) (by decide) (by decide)⟩

/-! ### C8 — first contact -/

/-- C8: with no prior record for the pair, a direct snap appends exactly one
new record with `count = 1`, the sender's flag true, the recipient's flag
false, `at_risk = false` and `last_snap_at = t0`. -/
theorem first_contact (tbl : List Streak) (A B : BotId) (t0 : ℤ)
    (hnone : findStreak tbl A B = none) (hne : A ≠ B) :
    ∃ r, recordDirectSnap tbl A B t0 = tbl ++ [r] ∧
      r.count = 1 ∧ sentFlag r A = true ∧ otherFlag r A = false ∧
      r.at_risk = false ∧ r.last_snap_at = t0 := by
  refine ⟨insertStreak (freshId tbl) A B t0, ?_, ?_, ?_, ?_, rfl, rfl⟩
  · unfold recordDirectSnap
    rw [hnone]
  · rfl
  · unfold insertStreak sentFlag sortedPair
    rcases le_or_lt A B with hle | hlt
    · simp [hle]
    · simp [not_le.mpr hlt, hne, (not_le.mpr hlt : ¬ A ≤ B)]
  · unfold insertStreak otherFlag sortedPair
    rcases le_or_lt A B with hle | hlt
    · simp [hle, hne]
    · simp [not_le.mpr hlt, hne]

/-- Witness for C8 on the empty table. -/
theorem first_contact_witness :
    (findStreak [] 1 2 = none ∧ (1 : BotId) ≠ 2) ∧
    (∃ r, recordDirectSnap [] 1 2 9 = [] ++ [r] ∧
      r.count = 1 ∧ sentFlag r 1 = true ∧ otherFlag r 1 = false ∧
      r.at_risk = false ∧ r.last_snap_at = 9) :=
  ⟨⟨by decide, by decide⟩, first_contact [] 1 2 9 (by decide) (by decide)⟩

/-! ### C10 — self-directed snaps grow a streak alone -/

/-- C10: nothing requires `sender ≠ recipient`: for a self-snap the
canonical pair sorts to `(x, x)`, the created record has both sent flags
true, and a second self-snap within 48 hours advances the count to 2 — a
single bot can grow a streak with no reciprocal partner. -/
theorem self_snap_streak (x : BotId) (i : Nat) (t0 t1 : ℤ)
    (hel : t1 - t0 ≤ 48 * 3600) :
    sortedPair x x = (x, x) ∧
    (insertStreak i x x t0).count = 1 ∧
    (insertStreak i x x t0).bot_a_sent = true ∧
    (insertStreak i x x t0).bot_b_sent = true ∧
    (updateStreakExisting x x t1 (insertStreak i x x t0)).count = 2 ∧
    (updateStreakExisting x x t1 (insertStreak i x x t0)).bot_a_sent = false ∧
    (updateStreakExisting x x t1 (insertStreak i x x t0)).bot_b_sent = false := by
  have hbreak : ¬ 48 < hoursSince t0 t1 := by
    rw [hoursSince_gt_iff]; omega
  refine ⟨by simp [sortedPair], rfl, by simp [insertStreak, sortedPair],
    by simp [insertStreak, sortedPair], ?_, ?_, ?_⟩ <;>
    simp [updateStreakExisting, applyStreakSend, insertStreak, sortedPair, hbreak]

/-- Witness for C10: bot 1 snaps itself at t=0 and again at t=3600. -/
theorem self_snap_streak_witness :
    ((3600 : ℤ) - 0 ≤ 48 * 3600) ∧
    (sortedPair 1 1 = (1, 1) ∧
     (insertStreak 4 1 1 0).count = 1 ∧
     (insertStreak 4 1 1 0).bot_a_sent = true ∧
     (insertStreak 4 1 1 0).bot_b_sent = true ∧
     (updateStreakExisting 1 1 3600 (insertStreak 4 1 1 0)).count = 2 ∧
     (updateStreakExisting 1 1 3600 (insertStreak 4 1 1 0)).bot_a_sent = false ∧
     (updateStreakExisting 1 1 3600 (insertStreak 4 1 1 0)).bot_b_sent = false) :=
  ⟨by decide, self_snap_streak 1 4 0 3600 (by decide)⟩

/-! ### C2 — the sweep's effect on each streak record -/

/-- The per-record sweep transition exactly as claim C2 words it: unchanged
up to 20 hours; between 20 and 48 hours only `at_risk` is raised (when it
was not already set); past 48 hours the record becomes `count = 1` with
both flags and `at_risk` cleared. -/
def sweepStreakClaimed (now : ℤ) (s : Streak) : Streak :=
  if hoursSince s.last_snap_at now ≤ 20 then s
  else if hoursSince s.last_snap_at now ≤ 48 then
    (if s.at_risk then s else { s with at_risk := true })
  else
    { s with count := 1, bot_a_sent := false, bot_b_sent := false, at_risk := false }

/-- The threshold comparisons of `run_cleanup` in hours. -/
lemma lt_hoursSince_iff (c last now : ℤ) :
    (c : ℚ) < hoursSince last now ↔ c * 3600 < now - last := by
  unfold hoursSince
  rw [lt_div_iff₀ (by norm_num : (0 : ℚ) < 3600)]
  norm_cast

/-- One sweep's effect on one streak row agrees with claim C2's function. -/
lemma sweepStreakRow_eq_claimed (now : ℤ) (s : Streak) :
    sweepStreakRow now s = sweepStreakClaimed now s := by
  obtain ⟨sid, a, b, cnt, last, fa, fb, risk⟩ := s
  have h20 : ¬ hoursSince last now ≤ 20 ↔ last < now - 20 * 3600 := by
    rw [not_le, show ((20 : ℚ) = ((20 : ℤ) : ℚ)) by norm_num, lt_hoursSince_iff]
    constructor <;> intro h <;> omega
  have h48 : ¬ hoursSince last now ≤ 48 ↔ last < now - 48 * 3600 := by
    rw [not_le, show ((48 : ℚ) = ((48 : ℤ) : ℚ)) by norm_num, lt_hoursSince_iff]
    constructor <;> intro h <;> omega
  unfold sweepStreakRow sweepStreakClaimed markRow resetRow
  by_cases hb : last < now - 172800
  · have hm : last < now - 72000 := by omega
    have hq48 : ¬ hoursSince last now ≤ 48 := h48.mpr (by omega)
    have hq20 : ¬ hoursSince last now ≤ 20 := h20.mpr (by omega)
    cases risk <;> simp [hb, hm, hq48, hq20]
  · by_cases hm : last < now - 72000
    · have hq48 : hoursSince last now ≤ 48 := by
        by_contra hc
        have := h48.mp hc
        omega
      have hq20 : ¬ hoursSince last now ≤ 20 := h20.mpr (by omega)
      cases risk <;> simp [hb, hm, hq48, hq20]
    · have hq20 : hoursSince last now ≤ 20 := by
        by_contra hc
        have := h20.mp hc
        omega
      cases risk <;> simp [hb, hm, hq20]

/-- C2: after one sweep run every streak record equals the claim's function
of its prior state (record unchanged within 20 h; only `at_risk` raised
between 20 h and 48 h; reset to `count = 1`, cleared flags and cleared
`at_risk` past 48 h, with `last_snap_at` untouched). -/
theorem sweep_streak_state (st : CleanState) (now : ℤ) :
    (runCleanup st now).1.streaks = st.streaks.map (sweepStreakClaimed now) := by
  show (st.streaks.map (markRow now)).map (resetRow now) = _
  rw [List.map_map]
  exact List.map_congr_left (fun s _ => sweepStreakRow_eq_claimed now s)

/-! ### C4 — send-triggered break versus sweep-triggered reset -/

/-- C4 counterexample: for a pair idle 49 hours, the send-triggered break
path and the sweep's reset path do NOT produce the same state (the send
sets `last_snap_at = now` and the sender's flag; the sweep leaves
`last_snap_at` unchanged and clears both flags). -/
theorem send_sweep_divergence :
    updateStreakExisting 1 2 176400 ⟨9, 1, 2, 5, 0, false, false, false⟩ ≠
      sweepStreakRow 176400 ⟨9, 1, 2, 5, 0, false, false, false⟩ := by
  have hb : (48 : ℚ) < hoursSince 0 176400 := by
    rw [hoursSince_gt_iff]; omega
  intro h
  have hlast := congrArg Streak.last_snap_at h
  simp [updateStreakExisting, applyStreakSend, sweepStreakRow, markRow,
    resetRow, sortedPair, hb] at hlast

/-- C4 amended: past 48 hours the two paths agree on `count = 1` and
`at_risk = false`, and the send-break state is exactly what the send
produces after the sweep's reset (the sweep leaves `last_snap_at` in
place with both flags cleared; the send then stamps `last_snap_at = now`
and the sender's flag). -/
theorem send_break_refines_sweep_reset (sender recipient : BotId) (now : ℤ)
    (s : Streak) (hel : 48 * 3600 < now - s.last_snap_at) :
    updateStreakExisting sender recipient now (sweepStreakRow now s) =
      updateStreakExisting sender recipient now s ∧
    (updateStreakExisting sender recipient now s).count = 1 ∧
    (updateStreakExisting sender recipient now s).at_risk = false ∧
    (sweepStreakRow now s).count = 1 ∧
    (sweepStreakRow now s).at_risk = false ∧
    (sweepStreakRow now s).last_snap_at = s.last_snap_at := by
  obtain ⟨sid, a, b, cnt, last, fa, fb, risk⟩ := s
  dsimp only at hel
  have hsec : last < now - 172800 := by omega
  have hsec20 : last < now - 72000 := by omega
  have hb : (48 : ℚ) < hoursSince last now := by
    rw [hoursSince_gt_iff]; omega
  cases risk <;>
    simp [updateStreakExisting, applyStreakSend, sweepStreakRow, markRow,
      resetRow, hsec, hsec20, hb]

/-- Witness for the amended C4 at a concrete 49-hour-idle record. -/
theorem send_break_refines_sweep_reset_witness :
    (48 * 3600 < (176400 : ℤ) - (⟨9, 1, 2, 5, 0, true, false, true⟩ : Streak).last_snap_at) ∧
    (updateStreakExisting 2 1 176400 (sweepStreakRow 176400 ⟨9, 1, 2, 5, 0, true, false, true⟩) =
        updateStreakExisting 2 1 176400 ⟨9, 1, 2, 5, 0, true, false, true⟩ ∧
      (updateStreakExisting 2 1 176400 ⟨9, 1, 2, 5, 0, true, false, true⟩).count = 1 ∧
      (updateStreakExisting 2 1 176400 ⟨9, 1, 2, 5, 0, true, false, true⟩).at_risk = false ∧
      (sweepStreakRow 176400 ⟨9, 1, 2, 5, 0, true, false, true⟩).count = 1 ∧
      (sweepStreakRow 176400 ⟨9, 1, 2, 5, 0, true, false, true⟩).at_risk = false ∧
      (sweepStreakRow 176400 ⟨9, 1, 2, 5, 0, true, false, true⟩).last_snap_at =
        (⟨9, 1, 2, 5, 0, true, false, true⟩ : Streak).last_snap_at) :=
  ⟨by decide, send_break_refines_sweep_reset 2 1 176400 ⟨9, 1, 2, 5, 0, true, false, true⟩ (by decide)⟩

/-! ### C9 — snap TTL bounds -/

/-- C9: the JSON endpoint bounds the TTL to [1, 168] and stores
`expires_at = now + ttl`, but the multipart `/snaps/upload` endpoint
accepts the same out-of-range TTL unchecked and stores the snap — the
code contradicts the bound declared on `PostSnapRequest`. -/
theorem upload_ttl_unbounded :
    expiresInHoursValid 1000 = false ∧
    postSnapExpiresAt 0 1000 = none ∧
    postSnapFileExpiresAt 0 1000 = 1000 * 3600 ∧
    expiresInHoursValid 24 = true ∧
    postSnapExpiresAt 0 24 = some (24 * 3600) := by
  decide

/-! ### C5 — running the sweeper twice -/

lemma filter_not_filter {α : Type} (p : α → Bool) (l : List α) :
    (l.filter (fun a => !(p a))).filter p = [] := by
  induction l with
  | nil => rfl
  | cons x xs ih => by_cases h : p x <;> simp [List.filter_cons, h, ih]

lemma filter_filter_self {α : Type} (p : α → Bool) (l : List α) :
    (l.filter p).filter p = l.filter p := by
  induction l with
  | nil => rfl
  | cons x xs ih => by_cases h : p x <;> simp [List.filter_cons, h, ih]

lemma markRow_last (now : ℤ) (s : Streak) :
    (markRow now s).last_snap_at = s.last_snap_at := by
  unfold markRow; split <;> rfl

lemma resetRow_last (now : ℤ) (s : Streak) :
    (resetRow now s).last_snap_at = s.last_snap_at := by
  unfold resetRow; split <;> rfl

lemma sweepStreakRow_last (now : ℤ) (s : Streak) :
    (sweepStreakRow now s).last_snap_at = s.last_snap_at := by
  unfold sweepStreakRow; rw [resetRow_last, markRow_last]

/-- The broken-streak selection only looks at `last_snap_at`, so it is
unchanged by row transformations that keep `last_snap_at`. -/
lemma length_filter_map_lastInv (f : Streak → Streak)
    (hf : ∀ s, (f s).last_snap_at = s.last_snap_at) (c : ℤ) (l : List Streak) :
    ((l.map f).filter (fun s => decide (s.last_snap_at < c))).length =
      (l.filter (fun s => decide (s.last_snap_at < c))).length := by
  induction l with
  | nil => rfl
  | cons x xs ih =>
    by_cases h : x.last_snap_at < c <;>
      simp [List.filter_cons, hf, h, ih]

/-- One sweep of a streak row is idempotent on the row's state. -/
lemma sweepStreakRow_idem (now : ℤ) (s : Streak) :
    sweepStreakRow now (sweepStreakRow now s) = sweepStreakRow now s := by
  obtain ⟨sid, a, b, cnt, last, fa, fb, risk⟩ := s
  unfold sweepStreakRow markRow resetRow
  by_cases hb : last < now - 172800
  · have hm : last < now - 72000 := by omega
    cases risk <;> simp [hb, hm]
  · by_cases hm : last < now - 72000
    · cases risk <;> simp [hb, hm]
    · simp [hb, hm]

lemma CleanState_ext (a b : CleanState) (h1 : a.snaps = b.snaps)
    (h2 : a.stories = b.stories) (h3 : a.messages = b.messages)
    (h4 : a.streaks = b.streaks) : a = b := by
  cases a; cases b; simp_all

/-- C5 counterexample: with a single streak 49 hours idle and nothing else,
the second sweep run (same instant, no new content, no threshold crossings)
still resets one streak — `streaks_reset = 1`, not the claimed zero row
mutations (the sweep reset never refreshes `last_snap_at`). -/
theorem sweep_rerun_mutates :
    (runCleanup (runCleanup ⟨[], [], [], [⟨1, 1, 2, 5, 0, true, true, false⟩]⟩ 176400).1
        176400).2.streaks_reset = 1 ∧
    (runCleanup (runCleanup ⟨[], [], [], [⟨1, 1, 2, 5, 0, true, true, false⟩]⟩ 176400).1
        176400).2.streaks_reset ≠ 0 := by
  decide

/-- C5 amended: a second sweep run with no new content and no threshold
crossings performs zero deletions and leaves the state exactly as the first
run left it; however it is not mutation-free — it re-marks and re-resets
every streak still idle past 48 hours, issuing the same number of streak
resets as the first run rather than zero. -/
theorem sweep_second_run (st : CleanState) (now : ℤ) :
    (runCleanup (runCleanup st now).1 now).1 = (runCleanup st now).1 ∧
    (runCleanup (runCleanup st now).1 now).2.storage_files_deleted = 0 ∧
    (runCleanup (runCleanup st now).1 now).2.snaps_deleted = 0 ∧
    (runCleanup (runCleanup st now).1 now).2.stories_deleted = 0 ∧
    (runCleanup (runCleanup st now).1 now).2.messages_deleted = 0 ∧
    (runCleanup (runCleanup st now).1 now).2.streaks_reset =
      (runCleanup st now).2.streaks_reset := by
  refine ⟨?_, ?_, ?_, ?_, ?_, ?_⟩
  · refine CleanState_ext _ _ ?_ ?_ ?_ ?_
    · exact filter_filter_self _ st.snaps
    · exact filter_filter_self _ st.stories
    · exact filter_filter_self _ st.messages
    · show (((st.streaks.map (markRow now)).map (resetRow now)).map (markRow now)).map
          (resetRow now) =
        (st.streaks.map (markRow now)).map (resetRow now)
      induction st.streaks with
      | nil => rfl
      | cons x xs ih =>
        simp only [List.map_cons, List.cons.injEq]
        exact ⟨sweepStreakRow_idem now x, ih⟩
  · show purgeStorageFiles false
        (((st.snaps.filter (fun s => !decide (s.expires_at < now))).filter
            (fun s => decide (s.expires_at < now))).map SnapRow.storage_path) = 0
    rw [filter_not_filter]
    rfl
  · show ((st.snaps.filter (fun s => !decide (s.expires_at < now))).filter
        (fun s => decide (s.expires_at < now))).length = 0
    rw [filter_not_filter]
    rfl
  · show ((st.stories.filter (fun r => !decide (r.expires_at < now))).filter
        (fun r => decide (r.expires_at < now))).length = 0
    rw [filter_not_filter]
    rfl
  · show ((st.messages.filter (fun r => !decide (r.expires_at < now))).filter
        (fun r => decide (r.expires_at < now))).length = 0
    rw [filter_not_filter]
    rfl
  · show ((((st.streaks.map (markRow now)).map (resetRow now)).map (markRow now)).filter
        (fun s => decide (s.last_snap_at < now - 48 * 3600))).length =
      ((st.streaks.map (markRow now)).filter
        (fun s => decide (s.last_snap_at < now - 48 * 3600))).length
    rw [List.map_map, List.map_map]
    rw [length_filter_map_lastInv _ (fun s => by
      show (markRow now (resetRow now (markRow now s))).last_snap_at = s.last_snap_at
      rw [markRow_last, resetRow_last, markRow_last])]
    rw [length_filter_map_lastInv _ (markRow_last now)]

/-! ### C6 — failure isolation inside one sweep run -/

/-- C6 counterexample: a failure of the story-sweep delete aborts the rest
of the run (an expired message survives and no streak is touched), and a
failure while resetting the first broken streak blocks the reset of the
second one (its count stays 7; only its at-risk mark, issued earlier, went
through). -/
theorem sweep_fault_aborts :
    ((runCleanupF { noFault with storyDelete := true }
        ⟨[], [], [⟨1, 10⟩], [⟨1, 1, 2, 5, 0, true, true, false⟩]⟩ 176400).1.messages =
          [⟨1, 10⟩] ∧
      (runCleanupF { noFault with storyDelete := true }
        ⟨[], [], [⟨1, 10⟩], [⟨1, 1, 2, 5, 0, true, true, false⟩]⟩ 176400).1.streaks =
          [⟨1, 1, 2, 5, 0, true, true, false⟩] ∧
      (runCleanupF { noFault with storyDelete := true }
        ⟨[], [], [⟨1, 10⟩], [⟨1, 1, 2, 5, 0, true, true, false⟩]⟩ 176400).2.2 = true) ∧
    ((runCleanupF { noFault with resetFailIds := [1] }
        ⟨[], [], [], [⟨1, 1, 2, 5, 0, true, true, false⟩, ⟨2, 3, 4, 7, 0, true, true, false⟩]⟩
        176400).1.streaks =
          [⟨1, 1, 2, 5, 0, true, true, true⟩, ⟨2, 3, 4, 7, 0, true, true, true⟩] ∧
      (runCleanupF { noFault with resetFailIds := [1] }
        ⟨[], [], [], [⟨1, 1, 2, 5, 0, true, true, false⟩, ⟨2, 3, 4, 7, 0, true, true, false⟩]⟩
        176400).2.2 = true) := by
  decide

/-- With no designated failing reset, the reset loop never raises. -/
lemma resetLoop_nil_snd (pending : List Nat) (tbl : List Streak) :
    (resetLoop [] pending tbl).2 = false := by
  induction pending generalizing tbl with
  | nil => rfl
  | cons i rest ih => simpa [resetLoop] using ih _

/-- C6 amended: only the storage purge is isolated — its failure changes
nothing but the reported storage count and the run completes.  Every other
failing sub-step raises out of `run_cleanup` and aborts the remaining
sub-steps of that run: a failing snap delete (executed whenever expired
snaps exist) leaves the whole state untouched; a failing story delete
leaves stories, messages and streaks untouched; a failing message delete
leaves messages and streaks untouched; a failing at-risk update leaves the
streaks untouched; and a failing reset of one broken streak abandons the
loop, leaving every later broken streak of the run unreset. -/
theorem sweep_fault_boundaries (st : CleanState) (now : ℤ) :
    ((runCleanupF { noFault with storagePurge := true } st now).1 =
        (runCleanupF noFault st now).1 ∧
      (runCleanupF { noFault with storagePurge := true } st now).2.2 = false) ∧
    ((st.snaps.filter (fun s => decide (s.expires_at < now))).length ≠ 0 →
      (runCleanupF { noFault with snapDelete := true } st now).1 = st ∧
      (runCleanupF { noFault with snapDelete := true } st now).2.2 = true) ∧
    ((runCleanupF { noFault with storyDelete := true } st now).1.stories = st.stories ∧
      (runCleanupF { noFault with storyDelete := true } st now).1.messages = st.messages ∧
      (runCleanupF { noFault with storyDelete := true } st now).1.streaks = st.streaks ∧
      (runCleanupF { noFault with storyDelete := true } st now).2.2 = true) ∧
    ((runCleanupF { noFault with messageDelete := true } st now).1.messages = st.messages ∧
      (runCleanupF { noFault with messageDelete := true } st now).1.streaks = st.streaks ∧
      (runCleanupF { noFault with messageDelete := true } st now).2.2 = true) ∧
    ((runCleanupF { noFault with atRiskUpdate := true } st now).1.streaks = st.streaks ∧
      (runCleanupF { noFault with atRiskUpdate := true } st now).2.2 = true) ∧
    (∀ (failIds : List Nat) (i : Nat) (rest : List Nat) (tbl : List Streak),
      i ∈ failIds → resetLoop failIds (i :: rest) tbl = (tbl, true)) := by
  refine ⟨⟨?_, ?_⟩, ?_, ⟨?_, ?_, ?_, ?_⟩, ⟨?_, ?_, ?_⟩, ⟨?_, ?_⟩, ?_⟩
  · simp [runCleanupF, noFault]
  · simp [runCleanupF, noFault, resetLoop_nil_snd]
  · intro hexp
    constructor <;> simp [runCleanupF, noFault, hexp]
  · simp [runCleanupF, noFault]
  · simp [runCleanupF, noFault]
  · simp [runCleanupF, noFault]
  · simp [runCleanupF, noFault]
  · simp [runCleanupF, noFault]
  · simp [runCleanupF, noFault]
  · simp [runCleanupF, noFault]
  · simp [runCleanupF, noFault]
  · simp [runCleanupF, noFault]
  · intro failIds i rest tbl hi
    unfold resetLoop
    rw [if_pos hi]

/-- Witness for the amended C6 at a concrete state holding one expired
snap, story and message and one broken streak. -/
theorem sweep_fault_boundaries_witness :
    ((((⟨[⟨1, some 7, 100⟩], [⟨1, 20⟩], [⟨1, 10⟩], [⟨1, 1, 2, 5, 0, true, true, false⟩]⟩ :
          CleanState).snaps.filter (fun s => decide (s.expires_at < 176400))).length ≠ 0) ∧
    (((runCleanupF { noFault with storagePurge := true }
          ⟨[⟨1, some 7, 100⟩], [⟨1, 20⟩], [⟨1, 10⟩], [⟨1, 1, 2, 5, 0, true, true, false⟩]⟩
          176400).1 =
        (runCleanupF noFault
          ⟨[⟨1, some 7, 100⟩], [⟨1, 20⟩], [⟨1, 10⟩], [⟨1, 1, 2, 5, 0, true, true, false⟩]⟩
          176400).1 ∧
      (runCleanupF { noFault with storagePurge := true }
          ⟨[⟨1, some 7, 100⟩], [⟨1, 20⟩], [⟨1, 10⟩], [⟨1, 1, 2, 5, 0, true, true, false⟩]⟩
          176400).2.2 = false) ∧
    ((runCleanupF { noFault with snapDelete := true }
          ⟨[⟨1, some 7, 100⟩], [⟨1, 20⟩], [⟨1, 10⟩], [⟨1, 1, 2, 5, 0, true, true, false⟩]⟩
          176400).1 =
        ⟨[⟨1, some 7, 100⟩], [⟨1, 20⟩], [⟨1, 10⟩], [⟨1, 1, 2, 5, 0, true, true, false⟩]⟩ ∧
      (runCleanupF { noFault with snapDelete := true }
          ⟨[⟨1, some 7, 100⟩], [⟨1, 20⟩], [⟨1, 10⟩], [⟨1, 1, 2, 5, 0, true, true, false⟩]⟩
          176400).2.2 = true) ∧
    ((runCleanupF { noFault with storyDelete := true }
          ⟨[⟨1, some 7, 100⟩], [⟨1, 20⟩], [⟨1, 10⟩], [⟨1, 1, 2, 5, 0, true, true, false⟩]⟩
          176400).1.stories = [⟨1, 20⟩] ∧
      (runCleanupF { noFault with storyDelete := true }
          ⟨[⟨1, some 7, 100⟩], [⟨1, 20⟩], [⟨1, 10⟩], [⟨1, 1, 2, 5, 0, true, true, false⟩]⟩
          176400).1.messages = [⟨1, 10⟩] ∧
      (runCleanupF { noFault with storyDelete := true }
          ⟨[⟨1, some 7, 100⟩], [⟨1, 20⟩], [⟨1, 10⟩], [⟨1, 1, 2, 5, 0, true, true, false⟩]⟩
          176400).1.streaks = [⟨1, 1, 2, 5, 0, true, true, false⟩] ∧
      (runCleanupF { noFault with storyDelete := true }
          ⟨[⟨1, some 7, 100⟩], [⟨1, 20⟩], [⟨1, 10⟩], [⟨1, 1, 2, 5, 0, true, true, false⟩]⟩
          176400).2.2 = true) ∧
    ((runCleanupF { noFault with messageDelete := true }
          ⟨[⟨1, some 7, 100⟩], [⟨1, 20⟩], [⟨1, 10⟩], [⟨1, 1, 2, 5, 0, true, true, false⟩]⟩
          176400).1.messages = [⟨1, 10⟩] ∧
      (runCleanupF { noFault with messageDelete := true }
          ⟨[⟨1, some 7, 100⟩], [⟨1, 20⟩], [⟨1, 10⟩], [⟨1, 1, 2, 5, 0, true, true, false⟩]⟩
          176400).1.streaks = [⟨1, 1, 2, 5, 0, true, true, false⟩] ∧
      (runCleanupF { noFault with messageDelete := true }
          ⟨[⟨1, some 7, 100⟩], [⟨1, 20⟩], [⟨1, 10⟩], [⟨1, 1, 2, 5, 0, true, true, false⟩]⟩
          176400).2.2 = true) ∧
    ((runCleanupF { noFault with atRiskUpdate := true }
          ⟨[⟨1, some 7, 100⟩], [⟨1, 20⟩], [⟨1, 10⟩], [⟨1, 1, 2, 5, 0, true, true, false⟩]⟩
          176400).1.streaks = [⟨1, 1, 2, 5, 0, true, true, false⟩] ∧
      (runCleanupF { noFault with atRiskUpdate := true }
          ⟨[⟨1, some 7, 100⟩], [⟨1, 20⟩], [⟨1, 10⟩], [⟨1, 1, 2, 5, 0, true, true, false⟩]⟩
          176400).2.2 = true) ∧
    (∀ (failIds : List Nat) (i : Nat) (rest : List Nat) (tbl : List Streak),
      i ∈ failIds → resetLoop failIds (i :: rest) tbl = (tbl, true)))) := by
  have h := sweep_fault_boundaries
    ⟨[⟨1, some 7, 100⟩], [⟨1, 20⟩], [⟨1, 10⟩], [⟨1, 1, 2, 5, 0, true, true, false⟩]⟩ 176400
  exact ⟨by decide, h.1, h.2.1 (by decide), h.2.2.1, h.2.2.2.1, h.2.2.2.2.1, h.2.2.2.2.2⟩

/-! ### C7 — canonicalization of the streak pair -/

lemma sortedPair_comm (x y : BotId) : sortedPair x y = sortedPair y x := by
  unfold sortedPair
  rcases le_total x y with h | h
  · by_cases h' : y ≤ x
    · have hxy := le_antisymm h h'
      subst hxy; simp
    · simp [h, h']
  · by_cases h' : x ≤ y
    · have hxy := le_antisymm h' h
      subst hxy; simp
    · simp [h, h']

lemma sortedPair_fst_le (x y : BotId) : (sortedPair x y).1 ≤ (sortedPair x y).2 := by
  by_cases h : x ≤ y
  · simp [sortedPair, h]
  · simp only [sortedPair, if_neg h]
    exact le_of_not_le h

lemma insertStreak_key (i : Nat) (x y : BotId) (t : ℤ) :
    streakKey (insertStreak i x y t) = sortedPair x y := rfl

lemma applyStreakSend_id (x y : BotId) (t : ℤ) (s r : Streak) :
    (applyStreakSend x y t s r).id = r.id := by
  simp only [applyStreakSend]
  split
  · rfl
  · split <;> split <;> rfl

lemma applyStreakSend_fst (x y : BotId) (t : ℤ) (s r : Streak) :
    (applyStreakSend x y t s r).bot_a_id = r.bot_a_id := by
  simp only [applyStreakSend]
  split
  · rfl
  · split <;> split <;> rfl

lemma applyStreakSend_snd (x y : BotId) (t : ℤ) (s r : Streak) :
    (applyStreakSend x y t s r).bot_b_id = r.bot_b_id := by
  simp only [applyStreakSend]
  split
  · rfl
  · split <;> split <;> rfl

lemma applyStreakSend_key (x y : BotId) (t : ℤ) (s r : Streak) :
    streakKey (applyStreakSend x y t s r) = streakKey r := by
  unfold streakKey
  rw [applyStreakSend_fst, applyStreakSend_snd]

lemma le_foldr_max (x : Nat) (l : List Nat) (h : x ∈ l) : x ≤ l.foldr max 0 := by
  induction l with
  | nil => cases h
  | cons y ys ih =>
    rcases List.mem_cons.mp h with rfl | h'
    · exact le_max_left _ _
    · exact le_trans (ih h') (le_max_right _ _)

lemma id_lt_freshId (tbl : List Streak) (s : Streak) (hs : s ∈ tbl) :
    s.id < freshId tbl := by
  have := le_foldr_max s.id (tbl.map Streak.id) (List.mem_map_of_mem _ hs)
  unfold freshId
  omega

lemma findStreak_comm (tbl : List Streak) (x y : BotId) :
    findStreak tbl x y = findStreak tbl y x := by
  unfold findStreak
  rw [sortedPair_comm]

lemma findStreak_none_iff (tbl : List Streak) (x y : BotId) :
    findStreak tbl x y = none ↔ ∀ s ∈ tbl, streakKey s ≠ sortedPair x y := by
  unfold findStreak
  rw [List.find?_eq_none]
  constructor
  · intro h s hs hk
    have h2 := h s hs
    have h3 : s.bot_a_id = (sortedPair x y).1 := congrArg Prod.fst hk
    have h4 : s.bot_b_id = (sortedPair x y).2 := congrArg Prod.snd hk
    simp [h3, h4] at h2
  · intro h s hs
    simp only [Bool.and_eq_true, decide_eq_true_eq, not_and]
    intro h1 h2
    exact h s hs (by simp [streakKey, Prod.ext_iff, h1, h2])

lemma findStreak_some (tbl : List Streak) (x y : BotId) (s : Streak)
    (h : findStreak tbl x y = some s) :
    s ∈ tbl ∧ streakKey s = sortedPair x y := by
  unfold findStreak at h
  refine ⟨List.mem_of_find?_eq_some h, ?_⟩
  have h2 := List.find?_some h
  simp only [Bool.and_eq_true, decide_eq_true_eq] at h2
  simp [streakKey, Prod.ext_iff, h2.1, h2.2]

lemma map_comp_congr {α β : Type} (f : α → α) (g : α → β)
    (hg : ∀ a, g (f a) = g a) (l : List α) : (l.map f).map g = l.map g := by
  induction l with
  | nil => rfl
  | cons x xs ih => simp [hg, ih]

/-- A direct snap preserves the table invariant. -/
lemma recordDirectSnap_inv (tbl : List Streak) (x y : BotId) (t : ℤ)
    (h : StreakTableInv tbl) : StreakTableInv (recordDirectSnap tbl x y t) := by
  obtain ⟨hid, hkey, hsorted⟩ := h
  unfold recordDirectSnap
  cases hf : findStreak tbl x y with
  | none =>
    have hnone := (findStreak_none_iff tbl x y).mp hf
    refine ⟨?_, ?_, ?_⟩
    · rw [List.map_append, List.nodup_append]
      refine ⟨hid, List.nodup_singleton _, ?_⟩
      intro a ha hb
      obtain ⟨s, hs, rfl⟩ := List.mem_map.mp ha
      simp only [List.map_cons, List.map_nil, List.mem_singleton] at hb
      have := id_lt_freshId tbl s hs
      have hins : (insertStreak (freshId tbl) x y t).id = freshId tbl := rfl
      omega
    · rw [List.map_append, List.nodup_append]
      refine ⟨hkey, List.nodup_singleton _, ?_⟩
      intro k hk hk2
      obtain ⟨s, hs, rfl⟩ := List.mem_map.mp hk
      simp only [List.map_cons, List.map_nil, List.mem_singleton, insertStreak_key] at hk2
      exact hnone s hs hk2
    · intro s hs
      rcases List.mem_append.mp hs with hmem | hmem
      · exact hsorted s hmem
      · simp only [List.mem_singleton] at hmem
        subst hmem
        exact sortedPair_fst_le x y
  | some s0 =>
    have hfid : ∀ r : Streak,
        (if r.id = s0.id then applyStreakSend x y t s0 r else r).id = r.id := by
      intro r
      by_cases hr : r.id = s0.id <;> simp [hr, applyStreakSend_id]
    have hfkey : ∀ r : Streak,
        streakKey (if r.id = s0.id then applyStreakSend x y t s0 r else r) = streakKey r := by
      intro r
      by_cases hr : r.id = s0.id <;> simp [hr, applyStreakSend_key]
    refine ⟨?_, ?_, ?_⟩
    · rw [map_comp_congr _ _ hfid]; exact hid
    · rw [map_comp_congr _ _ hfkey]; exact hkey
    · intro r' hr'
      obtain ⟨r, hr, rfl⟩ := List.mem_map.mp hr'
      have hk := hfkey r
      have h1 := congrArg Prod.fst hk
      have h2 := congrArg Prod.snd hk
      simp only [streakKey] at h1 h2
      rw [h1, h2]
      exact hsorted r hr

lemma pairRecords_comm (tbl : List Streak) (x y : BotId) :
    pairRecords tbl x y = pairRecords tbl y x := by
  unfold pairRecords
  rw [sortedPair_comm]

lemma pairRecords_le_one (tbl : List Streak) (x y : BotId)
    (h : (tbl.map streakKey).Nodup) : (pairRecords tbl x y).length ≤ 1 := by
  unfold pairRecords
  induction tbl with
  | nil => simp
  | cons r rs ih =>
    simp only [List.map_cons, List.nodup_cons] at h
    by_cases hr : streakKey r = sortedPair x y
    · have hrest : rs.filter (fun s => decide (streakKey s = sortedPair x y)) = [] := by
        rw [List.filter_eq_nil_iff]
        intro a ha
        simp only [decide_eq_true_eq]
        intro hak
        exact h.1 (by rw [hr, ← hak]; exact List.mem_map_of_mem _ ha)
      simp [List.filter_cons, hr, hrest]
    · simp only [List.filter_cons, decide_eq_true_eq, hr, if_neg]
      simpa using ih h.2

lemma pairRecords_map_preserving (f : Streak → Streak)
    (hf : ∀ r, streakKey (f r) = streakKey r) (tbl : List Streak) (x y : BotId) :
    (pairRecords (tbl.map f) x y).length = (pairRecords tbl x y).length := by
  unfold pairRecords
  induction tbl with
  | nil => rfl
  | cons r rs ih =>
    by_cases hr : streakKey r = sortedPair x y <;>
      simp [List.filter_cons, hf, hr, ih]

/-- After any direct snap between `x` and `y`, the table holds exactly one
record for their canonical pair. -/
lemma recordDirectSnap_pair_one (tbl : List Streak) (x y : BotId) (t : ℤ)
    (h : StreakTableInv tbl) :
    (pairRecords (recordDirectSnap tbl x y t) x y).length = 1 := by
  obtain ⟨hid, hkey, hsorted⟩ := h
  unfold recordDirectSnap
  cases hf : findStreak tbl x y with
  | none =>
    have hnone := (findStreak_none_iff tbl x y).mp hf
    unfold pairRecords
    rw [List.filter_append]
    have h1 : tbl.filter (fun s => decide (streakKey s = sortedPair x y)) = [] := by
      rw [List.filter_eq_nil_iff]
      intro a ha
      simp only [decide_eq_true_eq]
      exact hnone a ha
    rw [h1]
    simp [insertStreak_key]
  | some s0 =>
    obtain ⟨hs0mem, hs0key⟩ := findStreak_some tbl x y s0 hf
    have hfkey : ∀ r : Streak,
        streakKey (if r.id = s0.id then applyStreakSend x y t s0 r else r) = streakKey r := by
      intro r
      by_cases hr : r.id = s0.id <;> simp [hr, applyStreakSend_key]
    rw [pairRecords_map_preserving _ hfkey]
    have hle := pairRecords_le_one tbl x y hkey
    have hmem : s0 ∈ pairRecords tbl x y := by
      unfold pairRecords
      rw [List.mem_filter]
      exact ⟨hs0mem, by simp [hs0key]⟩
    have hpos : 0 < (pairRecords tbl x y).length := List.length_pos.mpr
      (fun he => by simp [he] at hmem)
    omega

/-- Streak invariant plus uniqueness is preserved along any snap sequence
confined to the pair. -/
lemma snapSeq_pair_one (ops : List (BotId × BotId × ℤ)) (tbl : List Streak)
    (x y : BotId) (hinv : StreakTableInv tbl)
    (hone : (pairRecords tbl x y).length = 1)
    (hops : ∀ op ∈ ops, (op.1 = x ∧ op.2.1 = y) ∨ (op.1 = y ∧ op.2.1 = x)) :
    (pairRecords (snapSeq tbl ops) x y).length = 1 := by
  induction ops generalizing tbl with
  | nil => simpa [snapSeq] using hone
  | cons op rest ih =>
    have hop := hops op (List.mem_cons_self op rest)
    have hinv' := recordDirectSnap_inv tbl op.1 op.2.1 op.2.2 hinv
    have hone' : (pairRecords (recordDirectSnap tbl op.1 op.2.1 op.2.2) x y).length = 1 := by
      rcases hop with ⟨h1, h2⟩ | ⟨h1, h2⟩
      · rw [h1, h2]
        exact recordDirectSnap_pair_one tbl x y op.2.2 hinv
      · rw [h1, h2, pairRecords_comm]
        exact recordDirectSnap_pair_one tbl y x op.2.2 hinv
    have hstep : snapSeq tbl (op :: rest) =
        snapSeq (recordDirectSnap tbl op.1 op.2.1 op.2.2) rest := rfl
    rw [hstep]
    exact ih _ hinv' hone' (fun o ho => hops o (List.mem_cons_of_mem _ ho))

/-- C7: `record_direct_snap(A,B,t)` and `record_direct_snap(B,A,t)` touch
the one record keyed by the sorted pair — the two call directions leave the
table with identical canonical keys, the table stays well-formed, exactly
one record for the pair exists after the call, and no further sequence of
snaps between the pair (in either direction) ever yields a second record
for the same unordered pair. -/
theorem streak_canonical_pair (tbl : List Streak) (A B : BotId) (t : ℤ)
    (hInv : StreakTableInv tbl) (_hAB : A ≠ B) :
    (recordDirectSnap tbl A B t).map streakKey =
      (recordDirectSnap tbl B A t).map streakKey ∧
    StreakTableInv (recordDirectSnap tbl A B t) ∧
    (pairRecords (recordDirectSnap tbl A B t) A B).length = 1 ∧
    ∀ ops : List (BotId × BotId × ℤ),
      (∀ op ∈ ops, (op.1 = A ∧ op.2.1 = B) ∨ (op.1 = B ∧ op.2.1 = A)) →
      (pairRecords (snapSeq (recordDirectSnap tbl A B t) ops) A B).length = 1 := by
  have hone := recordDirectSnap_pair_one tbl A B t hInv
  have hinv' := recordDirectSnap_inv tbl A B t hInv
  refine ⟨?_, hinv', hone, fun ops hops => snapSeq_pair_one ops _ A B hinv' hone hops⟩
  unfold recordDirectSnap
  rw [findStreak_comm tbl B A]
  cases hf : findStreak tbl A B with
  | none =>
    rw [List.map_append, List.map_append]
    simp only [List.map_cons, List.map_nil, insertStreak_key]
    rw [sortedPair_comm]
  | some s0 =>
    have hab : ∀ r : Streak,
        streakKey (if r.id = s0.id then applyStreakSend A B t s0 r else r) = streakKey r := by
      intro r
      by_cases hr : r.id = s0.id <;> simp [hr, applyStreakSend_key]
    have hba : ∀ r : Streak,
        streakKey (if r.id = s0.id then applyStreakSend B A t s0 r else r) = streakKey r := by
      intro r
      by_cases hr : r.id = s0.id <;> simp [hr, applyStreakSend_key]
    rw [map_comp_congr _ _ hab, map_comp_congr _ _ hba]

/-- Witness for C7: bots 1 and 2 on the empty table, followed by a
back-and-forth sequence. -/
theorem streak_canonical_pair_witness :
    (StreakTableInv ([] : List Streak) ∧ (1 : BotId) ≠ 2) ∧
    ((recordDirectSnap [] 1 2 0).map streakKey =
        (recordDirectSnap [] 2 1 0).map streakKey ∧
      StreakTableInv (recordDirectSnap [] 1 2 0) ∧
      (pairRecords (recordDirectSnap [] 1 2 0) 1 2).length = 1 ∧
      ∀ ops : List (BotId × BotId × ℤ),
        (∀ op ∈ ops, (op.1 = 1 ∧ op.2.1 = 2) ∨ (op.1 = 2 ∧ op.2.1 = 1)) →
        (pairRecords (snapSeq (recordDirectSnap [] 1 2 0) ops) 1 2).length = 1) :=
  ⟨⟨⟨List.nodup_nil, List.nodup_nil, by simp⟩, by decide⟩,
    streak_canonical_pair [] 1 2 0 ⟨List.nodup_nil, List.nodup_nil, by simp⟩ (by decide)⟩

end SnapClaw
